import Mathlib

/-!
Shallow embedding of the csnake game (src/main.cpp): grid geometry,
snake simulation, spawning, menus and the update step, together with
theorems checking the specification's claims against it.

Randomness (`std::rand()`) is modelled by a finite entropy list of
naturals consumed left to right; an unbounded rejection-sampling loop
returns `none` when the list is exhausted.  SDL's `Uint32` arithmetic
(timestamps, the `(Uint32)snakeSpeed` cast) is modelled explicitly
modulo `2^32`.  Float-valued fields that the claims touch only through
exact arithmetic (sparkle life, animation time) are modelled as `ℚ`.
-/

namespace Csnake

/-- `SCREEN_WIDTH` from main.cpp. -/
def SCREEN_WIDTH : Int := 800
/-- `SCREEN_HEIGHT` from main.cpp. -/
def SCREEN_HEIGHT : Int := 600
/-- `GRID_SIZE` from main.cpp. -/
def GRID_SIZE : Int := 20

/-- `GameState` enum from main.cpp. -/
inductive GameState where
  | MAIN_MENU
  | CONFIG_MENU
  | MODE_MENU
  | PLAYING
  | PAUSED
  | QUIT
deriving DecidableEq, Repr

/-- `GameMode` enum from main.cpp. -/
inductive GameMode where
  | NORMAL
  | FLASHLIGHT
deriving DecidableEq, Repr

/-- `struct Point` from main.cpp (integer pixel coordinates). -/
structure Point where
  x : Int
  y : Int
deriving DecidableEq, Repr

/-- `struct Sparkle` from main.cpp; `life` is the float life modelled as `ℚ`. -/
structure Sparkle where
  x : ℚ
  y : ℚ
  life : ℚ
deriving DecidableEq, Repr

/-- The keys the game reacts to (`SDLK_ESCAPE`, arrows/WASD, `SDLK_RETURN`). -/
inductive Key where
  | escape
  | up
  | down
  | left
  | right
  | enter
deriving DecidableEq, Repr

/-- The mutable members of `class Application` that the game logic reads
and writes (window/renderer/audio handles are omitted: they never feed
back into the simulation). -/
structure AppState where
  state : GameState
  gameMode : GameMode
  snake : List Point
  foodItems : List Point
  obstacles : List Point
  direction : Point
  lastMoveTime : Nat
  score : Int
  highScore : Int
  animationTime : ℚ
  sparkles : List Sparkle
  selectedOption : Int
  pauseMenuOption : Int
  configOption : Int
  modeMenuOption : Int
  snakeSpeed : Int
  numFoodItems : Int
  numObstacles : Int
  grassWaveSpeed : ℚ
  grassWaveAmplitude : ℚ
deriving DecidableEq, Repr

/-- A 32-bit unsigned view of an integer: the value of `(Uint32)n`. -/
def u32 (n : Int) : Nat := (n.emod (2 ^ 32)).toNat

/-- `currentTime - lastMoveTime < (Uint32)snakeSpeed` from
`Application::update` (main.cpp line 398): the `Uint32` comparison that
decides whether the movement timer still blocks this tick. -/
def timerBlocks (currentTime lastMoveTime : Nat) (snakeSpeed : Int) : Bool :=
  u32 ((currentTime : Int) - (lastMoveTime : Int)) < u32 snakeSpeed

/-- Horizontal wrap of the candidate new-head x (main.cpp lines 410-414). -/
def wrapX (x : Int) : Int :=
  if x < 0 then SCREEN_WIDTH - GRID_SIZE
  else if x ≥ SCREEN_WIDTH then 0
  else x

/-- Vertical wrap of the candidate new-head y (main.cpp lines 417-421). -/
def wrapY (y : Int) : Int :=
  if y < 0 then SCREEN_HEIGHT - GRID_SIZE
  else if y ≥ SCREEN_HEIGHT then 0
  else y

/-- The new head computed by `Application::update` (main.cpp lines
404-421): one grid step in the current direction, wrapped toroidally. -/
def newHeadOf (head dir : Point) : Point :=
  ⟨wrapX (head.x + dir.x * GRID_SIZE), wrapY (head.y + dir.y * GRID_SIZE)⟩

/-- One pass of the inner `while (!validPos)` rejection-sampling loop
shared by `spawnFood` and `spawnObstacles` (main.cpp lines 935-953 and
962-980): draw `rand()` twice for a candidate cell and retry while the
candidate lies in either exclusion list.  Returns `none` when the
entropy list runs out. -/
def tryPlace (excl1 excl2 : List Point) : List Nat → Option (Point × List Nat)
  | rx :: ry :: rest =>
    let p : Point := ⟨((rx % (SCREEN_WIDTH / GRID_SIZE).toNat : Nat) : Int) * GRID_SIZE,
                      ((ry % (SCREEN_HEIGHT / GRID_SIZE).toNat : Nat) : Int) * GRID_SIZE⟩
    if p ∈ excl1 ∨ p ∈ excl2 then tryPlace excl1 excl2 rest
    else some (p, rest)
  | _ => none

/-- The outer `for (int i = 0; i < count; i++)` loop shared by
`spawnFood` and `spawnObstacles`: place `n` cells in order, each
avoiding both exclusion lists as they stood at call time. -/
def spawnLoop (excl1 excl2 : List Point) : Nat → List Nat → Option (List Point × List Nat)
  | 0, rng => some ([], rng)
  | n + 1, rng =>
    match tryPlace excl1 excl2 rng with
    | none => none
    | some (p, rng1) =>
      match spawnLoop excl1 excl2 n rng1 with
      | none => none
      | some (ps, rng2) => some (p :: ps, rng2)

/-- `Application::spawnFood` (main.cpp lines 931-956): append
`numFoodItems` cells to `foodItems`, each avoiding the snake and the
obstacles. -/
def spawnFood (a : AppState) (rng : List Nat) : Option (AppState × List Nat) :=
  (spawnLoop a.snake a.obstacles a.numFoodItems.toNat rng).map
    (fun pr => ({ a with foodItems := a.foodItems ++ pr.1 }, pr.2))

/-- `Application::spawnObstacles` (main.cpp lines 958-983): append
`count` cells to `obstacles`, each avoiding the snake and the food. -/
def spawnObstacles (a : AppState) (count : Int) (rng : List Nat) : Option (AppState × List Nat) :=
  (spawnLoop a.snake a.foodItems count.toNat rng).map
    (fun pr => ({ a with obstacles := a.obstacles ++ pr.1 }, pr.2))

/-- `Application::resetGame` (main.cpp lines 916-926): length-1 snake at
the canvas center, rightward direction, score 0, food and obstacles
cleared and respawned from the current configuration. -/
def resetGame (a : AppState) (rng : List Nat) : Option AppState :=
  let a1 := { a with snake := [⟨SCREEN_WIDTH / 2, SCREEN_HEIGHT / 2⟩],
                     direction := (⟨1, 0⟩ : Point), score := 0,
                     foodItems := [], obstacles := [] }
  match spawnFood a1 rng with
  | none => none
  | some (a2, rng1) =>
    match spawnObstacles a2 a2.numObstacles rng1 with
    | none => none
    | some (a3, _) => some a3

/-- The burst of 20 sparkles pushed by `Application::handleCollision`
(main.cpp lines 472-478), centered on the given cell. -/
def sparkleBurst (p : Point) : List Sparkle :=
  List.replicate 20 ⟨(p.x : ℚ) + GRID_SIZE / 2, (p.y : ℚ) + GRID_SIZE / 2, 1⟩

/-- `Application::handleCollision` (main.cpp lines 468-483): push the
sparkle burst at the current head, commit the high score, reset. -/
def handleCollision (a : AppState) (rng : List Nat) : Option AppState :=
  let a1 := { a with sparkles := a.sparkles ++ sparkleBurst (a.snake.headD ⟨0, 0⟩) }
  let a2 := { a1 with highScore := if a1.score > a1.highScore then a1.score else a1.highScore }
  resetGame a2 rng

/-- The sparkle decay at the tail of `Application::update` (main.cpp
lines 461-465): every life drops by `0.05` and entries with life ≤ 0
are erased. -/
def decaySparkles (l : List Sparkle) : List Sparkle :=
  (l.map fun s => { s with life := s.life - 1 / 20 }).filter fun s => decide (0 < s.life)

/-- `decaySparkles` applied to a state's sparkle list. -/
def stepSparkles (a : AppState) : AppState :=
  { a with sparkles := decaySparkles a.sparkles }

/-- The food branch of `Application::update` (main.cpp lines 444-454):
score up, commit high score, clear the food list, respawn food, spawn 5
extra obstacles. -/
def eatFood (a : AppState) (rng : List Nat) : Option AppState :=
  let a1 := { a with score := a.score + 1 }
  let a2 := { a1 with highScore := if a1.score > a1.highScore then a1.score else a1.highScore }
  let a3 := { a2 with foodItems := [] }
  match spawnFood a3 rng with
  | none => none
  | some (a4, rng1) =>
    match spawnObstacles a4 5 rng1 with
    | none => none
    | some (a5, _) => some a5

/-- `Application::update` (main.cpp lines 391-466).  `t` is
`SDL_GetTicks()`.  Mirrors the source's control flow: bump the
animation clock, bail out of non-playing states, bail out while the
`Uint32` movement timer blocks, record the tick time, then either
advance (possibly eating) with sparkle decay at the end, or route a
collision through `handleCollision` (which returns early, skipping the
decay). -/
def update (a0 : AppState) (t : Nat) (rng : List Nat) : Option AppState :=
  let a := { a0 with animationTime := a0.animationTime + 1 / 50 }
  if a.state ≠ GameState.PLAYING then some a
  else if timerBlocks t a.lastMoveTime a.snakeSpeed then some a
  else
    let a1 := { a with lastMoveTime := t }
    if a1.snake = [] then some (stepSparkles a1)
    else
      let nh := newHeadOf (a1.snake.headD ⟨0, 0⟩) a1.direction
      if nh ∈ a1.snake ∨ nh ∈ a1.obstacles then handleCollision a1 rng
      else
        let a2 := { a1 with snake := nh :: a1.snake }
        if nh ∈ a2.foodItems then
          match eatFood a2 rng with
          | none => none
          | some a3 => some (stepSparkles a3)
        else some (stepSparkles { a2 with snake := a2.snake.dropLast })

/-- `Application::startGame` (main.cpp lines 911-914). -/
def startGame (a : AppState) (rng : List Nat) : Option AppState :=
  resetGame { a with state := GameState.PLAYING } rng

/-- `Application::mainMenuSelection` (main.cpp lines 312-336):
0 = Start Game, 1 = Config, 2 = Game Mode, 3 = Quit. -/
def mainMenuSelection (a : AppState) (rng : List Nat) : Option AppState :=
  if a.selectedOption = 0 then startGame a rng
  else if a.selectedOption = 1 then some { a with state := GameState.CONFIG_MENU }
  else if a.selectedOption = 2 then some { a with state := GameState.MODE_MENU }
  else if a.selectedOption = 3 then some { a with state := GameState.QUIT }
  else some a

/-- `Application::adjustConfigOption` (main.cpp lines 341-373), switching
on `configOption` through the `ConfigOption` enum ordering
SPEED = 0, NUM_FOOD = 1, NUM_OBSTACLES = 2, AMPLITUDE = 3,
WAVE_SPEED = 4, EXIT = 5. -/
def adjustConfigOption (a : AppState) (increase : Bool) : AppState :=
  if a.configOption = 0 then
    if increase then
      { a with snakeSpeed := if a.snakeSpeed > 1 then a.snakeSpeed - 1 else -20 }
    else
      { a with snakeSpeed := a.snakeSpeed + 1 }
  else if a.configOption = 1 then
    if increase then { a with numFoodItems := a.numFoodItems + 1 }
    else if a.numFoodItems > 0 then { a with numFoodItems := a.numFoodItems - 1 }
    else a
  else if a.configOption = 2 then
    if increase then { a with numObstacles := a.numObstacles + 1 }
    else if a.numObstacles > 0 then { a with numObstacles := a.numObstacles - 1 }
    else a
  else if a.configOption = 3 then
    if increase then { a with grassWaveAmplitude := a.grassWaveAmplitude + 1 }
    else { a with grassWaveAmplitude := max 0 (a.grassWaveAmplitude - 1) }
  else if a.configOption = 4 then
    if increase then { a with grassWaveSpeed := a.grassWaveSpeed + 1 / 100 }
    else { a with grassWaveSpeed := max 0 (a.grassWaveSpeed - 1 / 100) }
  else if a.configOption = 5 then
    { a with state := GameState.MAIN_MENU }
  else a

/-- `Application::modeSelection` (main.cpp lines 378-386). -/
def modeSelection (a : AppState) : AppState :=
  { a with gameMode := if a.modeMenuOption = 0 then GameMode.NORMAL else GameMode.FLASHLIGHT,
           state := GameState.MAIN_MENU }

/-- `Application::onKeyDown` (main.cpp lines 228-307).  WASD keys share
the arrow-key branches.  `rng` feeds the spawns reached through Start
Game in the main menu. -/
def onKeyDown (a : AppState) (key : Key) (rng : List Nat) : Option AppState :=
  match key with
  | Key.escape =>
    if a.state = GameState.PLAYING then some { a with state := GameState.PAUSED }
    else if a.state = GameState.PAUSED then some { a with state := GameState.PLAYING }
    else if a.state = GameState.CONFIG_MENU ∨ a.state = GameState.MODE_MENU then
      some { a with state := GameState.MAIN_MENU }
    else some a
  | Key.up =>
    if a.state = GameState.MAIN_MENU then
      some { a with selectedOption := (a.selectedOption + 3).tmod 4 }
    else if a.state = GameState.PLAYING ∧ a.direction.y = 0 then
      some { a with direction := (⟨0, -1⟩ : Point) }
    else if a.state = GameState.PAUSED then
      some { a with pauseMenuOption := if a.pauseMenuOption = 0 then 1 else 0 }
    else if a.state = GameState.CONFIG_MENU then
      some { a with configOption := if a.configOption = 0 then 5 else a.configOption - 1 }
    else if a.state = GameState.MODE_MENU then
      some { a with modeMenuOption := if a.modeMenuOption = 0 then 1 else 0 }
    else some a
  | Key.down =>
    if a.state = GameState.MAIN_MENU then
      some { a with selectedOption := (a.selectedOption + 1).tmod 4 }
    else if a.state = GameState.PLAYING ∧ a.direction.y = 0 then
      some { a with direction := (⟨0, 1⟩ : Point) }
    else if a.state = GameState.PAUSED then
      some { a with pauseMenuOption := if a.pauseMenuOption = 0 then 1 else 0 }
    else if a.state = GameState.CONFIG_MENU then
      some { a with configOption := (a.configOption + 1).tmod 6 }
    else if a.state = GameState.MODE_MENU then
      some { a with modeMenuOption := if a.modeMenuOption = 0 then 1 else 0 }
    else some a
  | Key.left =>
    if a.state = GameState.PLAYING ∧ a.direction.x = 0 then
      some { a with direction := (⟨-1, 0⟩ : Point) }
    else if a.state = GameState.CONFIG_MENU then some (adjustConfigOption a false)
    else some a
  | Key.right =>
    if a.state = GameState.PLAYING ∧ a.direction.x = 0 then
      some { a with direction := (⟨1, 0⟩ : Point) }
    else if a.state = GameState.CONFIG_MENU then some (adjustConfigOption a true)
    else some a
  | Key.enter =>
    if a.state = GameState.MAIN_MENU then mainMenuSelection a rng
    else if a.state = GameState.PAUSED then
      some { a with state := if a.pauseMenuOption = 0 then GameState.PLAYING
                             else GameState.MAIN_MENU }
    else if a.state = GameState.MODE_MENU then some (modeSelection a)
    else some a

/-- A state with the member values set by the `Application` constructor
(main.cpp lines 78-101): main menu, normal mode, empty board, rightward
direction, default speed 100, 10 food items, 15 obstacles. -/
def initialApp : AppState where
  state := GameState.MAIN_MENU
  gameMode := GameMode.NORMAL
  snake := []
  foodItems := []
  obstacles := []
  direction := ⟨1, 0⟩
  lastMoveTime := 0
  score := 0
  highScore := 0
  animationTime := 0
  sparkles := []
  selectedOption := 0
  pauseMenuOption := 0
  configOption := 0
  modeMenuOption := 0
  snakeSpeed := 100
  numFoodItems := 10
  numObstacles := 15
  grassWaveSpeed := 1 / 20
  grassWaveAmplitude := 15

/-- A playing-state configuration holding the fast negative sentinel
speed `-20`, 100 ms after its last advance. -/
def frozenApp : AppState :=
  { initialApp with
      state := GameState.PLAYING
      snake := [⟨400, 300⟩]
      snakeSpeed := -20
      lastMoveTime := 900 }

/-- The configuration menu with "Back to Main Menu" (index 5)
highlighted. -/
def cfgExitApp : AppState :=
  { initialApp with state := GameState.CONFIG_MENU, configOption := 5 }

/-- A mid-session board used to exercise the spawners: snake at the
center, one obstacle at `(20, 0)` and one food at `(40, 0)`. -/
def spawnApp : AppState :=
  { initialApp with
      snake := [⟨400, 300⟩]
      obstacles := [⟨20, 0⟩]
      foodItems := [⟨40, 0⟩]
      numFoodItems := 1 }

/-- An empty board asking for two food items. -/
def foodDupApp : AppState :=
  { initialApp with snake := [⟨400, 300⟩], numFoodItems := 2 }

/-- A board that already holds an obstacle at `(0, 0)`. -/
def obsDupApp : AppState :=
  { initialApp with snake := [⟨400, 300⟩], obstacles := [⟨0, 0⟩] }

/-- A playing state about to run head-first into an obstacle, with a
score above the recorded high score. -/
def collApp : AppState :=
  { initialApp with
      state := GameState.PLAYING
      snake := [⟨400, 300⟩]
      obstacles := [⟨420, 300⟩]
      direction := ⟨1, 0⟩
      score := 3
      highScore := 2
      numFoodItems := 1
      numObstacles := 1 }

/-- The state one `update` tick after `collApp` at `t = 1000` with
entropy `[0,0,1,0]`: the obstacle hit commits the high score, bursts
sparkles at the old head, and resets the session. -/
def collAppAfter : AppState :=
  { collApp with
      animationTime := collApp.animationTime + 1 / 50
      lastMoveTime := 1000
      sparkles := sparkleBurst ⟨400, 300⟩
      highScore := 3
      snake := [⟨400, 300⟩]
      direction := ⟨1, 0⟩
      score := 0
      foodItems := [⟨0, 0⟩]
      obstacles := [⟨20, 0⟩] }

/-- A playing state one step to the left of a food cell. -/
def eatApp : AppState :=
  { initialApp with
      state := GameState.PLAYING
      snake := [⟨400, 300⟩]
      foodItems := [⟨420, 300⟩]
      direction := ⟨1, 0⟩
      numFoodItems := 1
      numObstacles := 0 }

/-- The state one `update` tick after `eatApp` at `t = 1000` with
entropy `[0,0,1,0,2,0,3,0,4,0,5,0]`: the food at `(420,300)` is eaten,
one fresh food lands on `(0,0)` and five obstacles on the first row. -/
def eatAppAfter : AppState :=
  { eatApp with
      animationTime := eatApp.animationTime + 1 / 50
      lastMoveTime := 1000
      snake := [⟨420, 300⟩, ⟨400, 300⟩]
      score := 1
      highScore := 1
      foodItems := [⟨0, 0⟩]
      obstacles := [⟨20, 0⟩, ⟨40, 0⟩, ⟨60, 0⟩, ⟨80, 0⟩, ⟨100, 0⟩] }

/-- A playing state about to collide, carrying one live sparkle. -/
def sparkApp : AppState :=
  { initialApp with
      state := GameState.PLAYING
      snake := [⟨400, 300⟩]
      obstacles := [⟨420, 300⟩]
      sparkles := [⟨5, 5, 1⟩]
      numFoodItems := 1
      numObstacles := 0 }

section Helpers

/-- A cell accepted by the rejection-sampling pass lies in neither
exclusion list. -/
theorem tryPlace_avoids (e1 e2 : List Point) :
    ∀ (rng : List Nat) (p : Point) (r : List Nat),
      tryPlace e1 e2 rng = some (p, r) → p ∉ e1 ∧ p ∉ e2
  | [], p, r => by simp [tryPlace]
  | [_], p, r => by simp [tryPlace]
  | rx :: ry :: rest, p, r => by
    intro h
    rw [tryPlace] at h
    split at h
    · exact tryPlace_avoids e1 e2 rest p r h
    · rename_i hcond
      push_neg at hcond
      obtain ⟨rfl, rfl⟩ := Prod.mk.injEq .. ▸ Option.some.injEq .. ▸ h
      exact hcond

/-- A successful spawn loop returns exactly `n` cells, each avoiding
both exclusion lists. -/
theorem spawnLoop_spec (e1 e2 : List Point) :
    ∀ (n : Nat) (rng : List Nat) (ps : List Point) (r : List Nat),
      spawnLoop e1 e2 n rng = some (ps, r) →
      ps.length = n ∧ ∀ p ∈ ps, p ∉ e1 ∧ p ∉ e2
  | 0, rng, ps, r => by
    intro h
    rw [spawnLoop] at h
    obtain ⟨rfl, rfl⟩ := Prod.mk.injEq .. ▸ Option.some.injEq .. ▸ h
    simp
  | n + 1, rng, ps, r => by
    intro h
    rw [spawnLoop] at h
    split at h
    · exact absurd h (by simp)
    · rename_i p0 rng1 htp
      split at h
      · exact absurd h (by simp)
      · rename_i ps0 rng2 hsl
        obtain ⟨rfl, rfl⟩ := Prod.mk.injEq .. ▸ Option.some.injEq .. ▸ h
        obtain ⟨hlen, hmem⟩ := spawnLoop_spec e1 e2 n rng1 ps0 rng2 hsl
        obtain ⟨h1, h2⟩ := tryPlace_avoids e1 e2 rng p0 rng1 htp
        refine ⟨by simp [hlen], ?_⟩
        intro p hp
        rcases List.mem_cons.mp hp with rfl | hp
        · exact ⟨h1, h2⟩
        · exact hmem p hp

/-- Unfolding of a successful `spawnFood`: the result appends fresh
cells to `foodItems` (each avoiding the snake and the obstacles, as
many as configured) and leaves every other field unchanged. -/
theorem spawnFood_spec (a : AppState) (rng : List Nat) (a1 : AppState) (r1 : List Nat)
    (h : spawnFood a rng = some (a1, r1)) :
    ∃ ps, a1 = { a with foodItems := a.foodItems ++ ps } ∧
      ps.length = a.numFoodItems.toNat ∧ ∀ p ∈ ps, p ∉ a.snake ∧ p ∉ a.obstacles := by
  rw [spawnFood] at h
  cases hsl : spawnLoop a.snake a.obstacles a.numFoodItems.toNat rng with
  | none => rw [hsl] at h; exact absurd h (by simp)
  | some pr =>
    rw [hsl] at h
    simp only [Option.map_some', Option.some.injEq, Prod.mk.injEq] at h
    obtain ⟨hlen, hmem⟩ := spawnLoop_spec _ _ _ _ _ _ hsl
    exact ⟨pr.1, h.1.symm, hlen, hmem⟩

/-- Unfolding of a successful `spawnObstacles`: the result appends
`count` fresh cells to `obstacles` (each avoiding the snake and the
food) and leaves every other field unchanged. -/
theorem spawnObstacles_spec (a : AppState) (count : Int) (rng : List Nat)
    (a1 : AppState) (r1 : List Nat)
    (h : spawnObstacles a count rng = some (a1, r1)) :
    ∃ qs, a1 = { a with obstacles := a.obstacles ++ qs } ∧
      qs.length = count.toNat ∧ ∀ p ∈ qs, p ∉ a.snake ∧ p ∉ a.foodItems := by
  rw [spawnObstacles] at h
  cases hsl : spawnLoop a.snake a.foodItems count.toNat rng with
  | none => rw [hsl] at h; exact absurd h (by simp)
  | some pr =>
    rw [hsl] at h
    simp only [Option.map_some', Option.some.injEq, Prod.mk.injEq] at h
    obtain ⟨hlen, hmem⟩ := spawnLoop_spec _ _ _ _ _ _ hsl
    exact ⟨pr.1, h.1.symm, hlen, hmem⟩

/-- Unfolding of a successful `resetGame`: length-1 snake at the
center, rightward direction, zero score, and food/obstacle lists of the
configured sizes; state, scores, sparkles and configuration are left
alone. -/
theorem resetGame_spec (a : AppState) (rng : List Nat) (a' : AppState)
    (h : resetGame a rng = some a') :
    a'.state = a.state ∧
    a'.snake = [⟨SCREEN_WIDTH / 2, SCREEN_HEIGHT / 2⟩] ∧
    a'.direction = ⟨1, 0⟩ ∧
    a'.score = 0 ∧
    a'.highScore = a.highScore ∧
    a'.sparkles = a.sparkles ∧
    a'.lastMoveTime = a.lastMoveTime ∧
    a'.foodItems.length = a.numFoodItems.toNat ∧
    a'.obstacles.length = a.numObstacles.toNat := by
  simp only [resetGame] at h
  split at h
  · exact absurd h (by simp)
  · rename_i a2 rng1 hsf
    split at h
    · exact absurd h (by simp)
    · rename_i a3 rng2 hso
      injection h with h
      subst h
      obtain ⟨ps, rfl, hpl, -⟩ := spawnFood_spec _ _ _ _ hsf
      obtain ⟨qs, rfl, hql, -⟩ := spawnObstacles_spec _ _ _ _ _ hso
      refine ⟨rfl, rfl, rfl, rfl, rfl, rfl, rfl, ?_, ?_⟩ <;> simp_all

end Helpers

/-- C3: advancing wraps the new head toroidally on both axes, so a head
already inside `[0,width) × [0,height)` moving in any of the four unit
directions stays inside; in particular a head at `(width-gridSize, y)`
moving right reappears at `(0, y)`, and symmetrically on each of the
four edges. -/
theorem C3_toroidal_wrap (head dir : Point)
    (hx : 0 ≤ head.x ∧ head.x < SCREEN_WIDTH)
    (hy : 0 ≤ head.y ∧ head.y < SCREEN_HEIGHT)
    (hd : dir = ⟨1, 0⟩ ∨ dir = ⟨-1, 0⟩ ∨ dir = ⟨0, 1⟩ ∨ dir = ⟨0, -1⟩) :
    (0 ≤ (newHeadOf head dir).x ∧ (newHeadOf head dir).x < SCREEN_WIDTH ∧
     0 ≤ (newHeadOf head dir).y ∧ (newHeadOf head dir).y < SCREEN_HEIGHT) ∧
    (head.x = SCREEN_WIDTH - GRID_SIZE → dir = ⟨1, 0⟩ →
      newHeadOf head dir = ⟨0, head.y⟩) ∧
    (head.x = 0 → dir = ⟨-1, 0⟩ →
      newHeadOf head dir = ⟨SCREEN_WIDTH - GRID_SIZE, head.y⟩) ∧
    (head.y = SCREEN_HEIGHT - GRID_SIZE → dir = ⟨0, 1⟩ →
      newHeadOf head dir = ⟨head.x, 0⟩) ∧
    (head.y = 0 → dir = ⟨0, -1⟩ →
      newHeadOf head dir = ⟨head.x, SCREEN_HEIGHT - GRID_SIZE⟩) := by
  obtain ⟨hx0, hx1⟩ := hx
  obtain ⟨hy0, hy1⟩ := hy
  rcases hd with rfl | rfl | rfl | rfl <;>
    refine ⟨?_, ?_, ?_, ?_, ?_⟩ <;>
      simp only [newHeadOf, wrapX, wrapY, SCREEN_WIDTH, SCREEN_HEIGHT, GRID_SIZE,
        Point.mk.injEq] at * <;>
      (intros) <;> split_ifs <;> omega

/-- Witness for C3: a head at `(780, 300)` moving right lands at
`(0, 300)`. -/
theorem C3_witness : newHeadOf ⟨780, 300⟩ ⟨1, 0⟩ = ⟨0, 300⟩ :=
  (C3_toroidal_wrap ⟨780, 300⟩ ⟨1, 0⟩ (by decide) (by decide) (Or.inl rfl)).2.1
    (by decide) rfl

/-- C4: in the `Playing` state a directional input is rejected iff it
reverses the current motion axis: moving along x, left/right inputs
leave the whole state unchanged while up/down set the direction to
`(0,-1)` / `(0,1)`; moving along y, up/down inputs leave the state
unchanged while left/right set the direction to `(-1,0)` / `(1,0)`. -/
theorem C4_direction_changes (a : AppState) (rng : List Nat)
    (hs : a.state = GameState.PLAYING) :
    ((a.direction.y = 0 ∧ a.direction.x ≠ 0) →
       onKeyDown a Key.left rng = some a ∧
       onKeyDown a Key.right rng = some a ∧
       onKeyDown a Key.up rng = some { a with direction := ⟨0, -1⟩ } ∧
       onKeyDown a Key.down rng = some { a with direction := ⟨0, 1⟩ }) ∧
    ((a.direction.x = 0 ∧ a.direction.y ≠ 0) →
       onKeyDown a Key.up rng = some a ∧
       onKeyDown a Key.down rng = some a ∧
       onKeyDown a Key.left rng = some { a with direction := ⟨-1, 0⟩ } ∧
       onKeyDown a Key.right rng = some { a with direction := ⟨1, 0⟩ }) := by
  constructor <;> rintro ⟨h1, h2⟩ <;>
    refine ⟨?_, ?_, ?_, ?_⟩ <;>
      simp [onKeyDown, hs, h1, h2]

/-- Witness for C4: moving right, pressing up turns the snake upward. -/
theorem C4_witness :
    onKeyDown { initialApp with state := GameState.PLAYING } Key.up [] =
      some { initialApp with state := GameState.PLAYING, direction := ⟨0, -1⟩ } :=
  ((C4_direction_changes { initialApp with state := GameState.PLAYING } [] rfl).1
    (by decide)).2.2.1

/-- C5 (code behavior at the failing input): the movement-timer
comparison casts `snakeSpeed` to `Uint32`, so the sentinel interval
`-20` becomes `4294967276` and blocks the advance (100 ms elapsed, the
snake does not move and `lastMoveTime` is not even updated), while the
claimed "advance every frame" reading holds only at interval 0. -/
theorem C5_negative_interval_freezes :
    u32 (-20) = 4294967276 ∧
    timerBlocks 1000 900 (-20) = true ∧
    timerBlocks 1000 1000 0 = false ∧
    (update frozenApp 1000 []).map (fun s => s.snake) = some [⟨400, 300⟩] ∧
    (update frozenApp 1000 []).map (fun s => s.lastMoveTime) = some 900 := by
  decide

/-- C6: with the speed item highlighted in the configuration menu, a
"speed up" input decrements the movement interval by 1 while it is
greater than 1 and otherwise jumps it to the sentinel `-20`; a
"slow down" input always increments it by 1. -/
theorem C6_speed_adjust (a : AppState) (h : a.configOption = 0) :
    (a.snakeSpeed > 1 →
      adjustConfigOption a true = { a with snakeSpeed := a.snakeSpeed - 1 }) ∧
    (¬ a.snakeSpeed > 1 →
      adjustConfigOption a true = { a with snakeSpeed := -20 }) ∧
    adjustConfigOption a false = { a with snakeSpeed := a.snakeSpeed + 1 } := by
  refine ⟨fun h1 => by simp [adjustConfigOption, h, h1],
          fun h1 => by simp [adjustConfigOption, h, h1],
          by simp [adjustConfigOption, h]⟩

/-- Witness for C6: at interval 1 a further "speed up" jumps to `-20`. -/
theorem C6_witness :
    adjustConfigOption { initialApp with snakeSpeed := 1 } true =
      { initialApp with snakeSpeed := -20 } :=
  (C6_speed_adjust { initialApp with snakeSpeed := 1 } rfl).2.1 (by decide)

/-- C7 counterexample: in the configuration menu with "Back to Main
Menu" highlighted, the confirm input is a no-op — the state stays
`CONFIG_MENU` instead of returning to the main menu as the claim
asserts. -/
theorem C7_counterexample :
    cfgExitApp.state = GameState.CONFIG_MENU ∧
    cfgExitApp.configOption = 5 ∧
    onKeyDown cfgExitApp Key.enter [] = some cfgExitApp :=
  ⟨rfl, rfl, rfl⟩

/-- C7 (amended): the confirm input triggers the highlighted item's
action in the main menu, the pause menu and the mode menu (the latter
commits the highlighted mode and returns to the main menu), but in the
configuration menu the confirm input is ignored; there the highlighted
item's action — including "Back to Main Menu" — is triggered by the
left/right adjust inputs instead. -/
theorem C7_menu_confirm (a : AppState) (rng : List Nat) :
    (a.state = GameState.MAIN_MENU → a.selectedOption = 0 →
      onKeyDown a Key.enter rng = startGame a rng) ∧
    (a.state = GameState.MAIN_MENU → a.selectedOption = 1 →
      onKeyDown a Key.enter rng = some { a with state := GameState.CONFIG_MENU }) ∧
    (a.state = GameState.MAIN_MENU → a.selectedOption = 2 →
      onKeyDown a Key.enter rng = some { a with state := GameState.MODE_MENU }) ∧
    (a.state = GameState.MAIN_MENU → a.selectedOption = 3 →
      onKeyDown a Key.enter rng = some { a with state := GameState.QUIT }) ∧
    (a.state = GameState.PAUSED →
      onKeyDown a Key.enter rng =
        some { a with state := if a.pauseMenuOption = 0 then GameState.PLAYING
                               else GameState.MAIN_MENU }) ∧
    (a.state = GameState.MODE_MENU →
      onKeyDown a Key.enter rng =
        some { a with gameMode := if a.modeMenuOption = 0 then GameMode.NORMAL
                                  else GameMode.FLASHLIGHT,
                      state := GameState.MAIN_MENU }) ∧
    (a.state = GameState.CONFIG_MENU → onKeyDown a Key.enter rng = some a) ∧
    (a.state = GameState.CONFIG_MENU → a.configOption = 5 →
      onKeyDown a Key.right rng = some { a with state := GameState.MAIN_MENU }) := by
  refine ⟨fun hs h0 => ?_, fun hs h0 => ?_, fun hs h0 => ?_, fun hs h0 => ?_,
          fun hs => ?_, fun hs => ?_, fun hs => ?_, fun hs h0 => ?_⟩ <;>
    simp [onKeyDown, mainMenuSelection, modeSelection, adjustConfigOption, hs, *]

/-- Witness for C7 (amended): confirming "Resume" in the pause menu
returns to the `Playing` state. -/
theorem C7_witness :
    onKeyDown { initialApp with state := GameState.PAUSED } Key.enter [] =
      some { initialApp with state := GameState.PLAYING } :=
  (C7_menu_confirm { initialApp with state := GameState.PAUSED } []).2.2.2.2.1 rfl

/-- C8: every cell a successful food spawn adds avoids the snake and
the obstacles present at spawn time, and every cell a successful
obstacle spawn adds avoids the snake and the food present at spawn
time. -/
theorem C8_spawn_exclusions (a b : AppState) (rngF rngO : List Nat) (count : Int)
    (aF : AppState) (rF : List Nat) (bO : AppState) (rO : List Nat)
    (hf : spawnFood a rngF = some (aF, rF))
    (ho : spawnObstacles b count rngO = some (bO, rO)) :
    (∃ ps, aF.foodItems = a.foodItems ++ ps ∧
       ∀ p ∈ ps, p ∉ a.snake ∧ p ∉ a.obstacles) ∧
    (∃ qs, bO.obstacles = b.obstacles ++ qs ∧
       ∀ p ∈ qs, p ∉ b.snake ∧ p ∉ b.foodItems) := by
  obtain ⟨ps, heq, -, hmem⟩ := spawnFood_spec a rngF aF rF hf
  obtain ⟨qs, heq', -, hmem'⟩ := spawnObstacles_spec b count rngO bO rO ho
  exact ⟨⟨ps, by rw [heq], hmem⟩, ⟨qs, by rw [heq'], hmem'⟩⟩

/-- Witness for C8: on `spawnApp`, one food spawn with entropy `[0,0]`
places `(0,0)` (clear of snake and obstacles) and one obstacle spawn
with entropy `[0,0]` places `(0,0)` (clear of snake and food). -/
theorem C8_witness :
    (∃ ps, ({ spawnApp with foodItems := [⟨40, 0⟩, ⟨0, 0⟩] } : AppState).foodItems =
       spawnApp.foodItems ++ ps ∧
       ∀ p ∈ ps, p ∉ spawnApp.snake ∧ p ∉ spawnApp.obstacles) ∧
    (∃ qs, ({ spawnApp with obstacles := [⟨20, 0⟩, ⟨0, 0⟩] } : AppState).obstacles =
       spawnApp.obstacles ++ qs ∧
       ∀ p ∈ qs, p ∉ spawnApp.snake ∧ p ∉ spawnApp.foodItems) :=
  C8_spawn_exclusions spawnApp spawnApp [0, 0] [0, 0] 1
    { spawnApp with foodItems := [⟨40, 0⟩, ⟨0, 0⟩] } []
    { spawnApp with obstacles := [⟨20, 0⟩, ⟨0, 0⟩] } []
    rfl rfl

/-- C1: a tick whose new head lands on a food cell increments the
score by one, raises the high score when the new score exceeds it,
replaces the entire food list by a fresh set of the configured size,
appends exactly 5 obstacles, and grows the snake by one segment (the
tail stays). -/
theorem C1_eat_food (a : AppState) (t : Nat) (rng : List Nat) (a' : AppState)
    (hs : a.state = GameState.PLAYING)
    (ht : timerBlocks t a.lastMoveTime a.snakeSpeed = false)
    (hne : a.snake ≠ [])
    (hnc : ¬ (newHeadOf (a.snake.headD ⟨0, 0⟩) a.direction ∈ a.snake ∨
              newHeadOf (a.snake.headD ⟨0, 0⟩) a.direction ∈ a.obstacles))
    (hf : newHeadOf (a.snake.headD ⟨0, 0⟩) a.direction ∈ a.foodItems)
    (hu : update a t rng = some a') :
    a'.score = a.score + 1 ∧
    a'.highScore = (if a.score + 1 > a.highScore then a.score + 1 else a.highScore) ∧
    a'.foodItems.length = a.numFoodItems.toNat ∧
    (∃ qs, a'.obstacles = a.obstacles ++ qs ∧ qs.length = 5) ∧
    a'.snake = newHeadOf (a.snake.headD ⟨0, 0⟩) a.direction :: a.snake := by
  simp only [update, hs, ne_eq, not_true_eq_false, if_false, ht, Bool.false_eq_true,
    hne, hnc, hf, if_true] at hu
  split at hu
  · exact absurd hu (by simp)
  · rename_i a3 heq
    injection hu with hu
    subst hu
    simp only [eatFood] at heq
    split at heq
    · exact absurd heq (by simp)
    · rename_i a4 rng1 hsf
      split at heq
      · exact absurd heq (by simp)
      · rename_i a5 rng2 hso
        injection heq with heq
        subst heq
        obtain ⟨ps, rfl, hpl, -⟩ := spawnFood_spec _ _ _ _ hsf
        obtain ⟨qs, rfl, hql, -⟩ := spawnObstacles_spec _ _ _ _ _ hso
        exact ⟨rfl, rfl, hpl.trans rfl, ⟨qs, rfl, hql.trans rfl⟩, rfl⟩

/-- Witness for C1: `eatApp` eats the food straight ahead; the food
list is respawned at size 1, five obstacles appear, score and high
score become 1, and the snake keeps its tail. -/
theorem C1_witness :
    eatAppAfter.score = eatApp.score + 1 ∧
    eatAppAfter.highScore = (if eatApp.score + 1 > eatApp.highScore then eatApp.score + 1
                             else eatApp.highScore) ∧
    eatAppAfter.foodItems.length = eatApp.numFoodItems.toNat ∧
    (∃ qs, eatAppAfter.obstacles = eatApp.obstacles ++ qs ∧ qs.length = 5) ∧
    eatAppAfter.snake = newHeadOf (eatApp.snake.headD ⟨0, 0⟩) eatApp.direction ::
      eatApp.snake :=
  C1_eat_food eatApp 1000 [0, 0, 1, 0, 2, 0, 3, 0, 4, 0, 5, 0] eatAppAfter rfl
    (by decide) (by decide) (by decide) (by decide) rfl

/-- C2: a tick whose new head hits the snake body or an obstacle does
not move the snake but commits the high score (so the high score never
decreases) and resets the session: length-1 snake at the canvas center
`(width/2, height/2)`, rightward direction, score 0, food and obstacles
respawned at the configured counts, state still `Playing`. -/
theorem C2_collision_resets (a : AppState) (t : Nat) (rng : List Nat) (a' : AppState)
    (hs : a.state = GameState.PLAYING)
    (ht : timerBlocks t a.lastMoveTime a.snakeSpeed = false)
    (hne : a.snake ≠ [])
    (hc : newHeadOf (a.snake.headD ⟨0, 0⟩) a.direction ∈ a.snake ∨
          newHeadOf (a.snake.headD ⟨0, 0⟩) a.direction ∈ a.obstacles)
    (hu : update a t rng = some a') :
    a'.state = GameState.PLAYING ∧
    a'.snake = [⟨SCREEN_WIDTH / 2, SCREEN_HEIGHT / 2⟩] ∧
    a'.direction = ⟨1, 0⟩ ∧
    a'.score = 0 ∧
    a'.highScore = (if a.score > a.highScore then a.score else a.highScore) ∧
    a.highScore ≤ a'.highScore ∧
    a'.foodItems.length = a.numFoodItems.toNat ∧
    a'.obstacles.length = a.numObstacles.toNat := by
  simp only [update, hs, ne_eq, not_true_eq_false, if_false, ht, Bool.false_eq_true,
    hne, hc, if_true] at hu
  rw [handleCollision] at hu
  obtain ⟨h1, h2, h3, h4, h5, -, -, h8, h9⟩ := resetGame_spec _ _ _ hu
  have hh : a'.highScore = if a.score > a.highScore then a.score else a.highScore :=
    h5.trans rfl
  refine ⟨h1.trans rfl, h2, h3, h4, hh, ?_, h8.trans rfl, h9.trans rfl⟩
  rw [hh]
  split <;> omega

/-- Witness for C2: `collApp` hits its obstacle, and with entropy
`[0,0,1,0]` the reset respawns one food at `(0,0)` and one obstacle at
`(20,0)` while the high score rises to 3. -/
theorem C2_witness :
    (collAppAfter.state = GameState.PLAYING ∧
     collAppAfter.snake = [⟨SCREEN_WIDTH / 2, SCREEN_HEIGHT / 2⟩] ∧
     collAppAfter.direction = ⟨1, 0⟩ ∧
     collAppAfter.score = 0 ∧
     collAppAfter.highScore = (if collApp.score > collApp.highScore then collApp.score
                               else collApp.highScore) ∧
     collApp.highScore ≤ collAppAfter.highScore ∧
     collAppAfter.foodItems.length = collApp.numFoodItems.toNat ∧
     collAppAfter.obstacles.length = collApp.numObstacles.toNat) :=
  C2_collision_resets collApp 1000 [0, 0, 1, 0] collAppAfter rfl (by decide)
    (by decide) (by decide) rfl

/-- C10 counterexample: on a Playing-state tick past the movement
timer that ends in a collision, the sparkle list is NOT decayed — the
pre-existing sparkle keeps life 1 and the 20-sparkle burst is appended
(21 entries, where a decay of the single old sparkle could leave at
most 1). -/
theorem C10_counterexample :
    sparkApp.state = GameState.PLAYING ∧
    timerBlocks 1000 sparkApp.lastMoveTime sparkApp.snakeSpeed = false ∧
    (update sparkApp 1000 [0, 0]).map (fun s => s.sparkles) =
      some ((⟨5, 5, 1⟩ : Sparkle) :: sparkleBurst ⟨400, 300⟩) ∧
    ((⟨5, 5, 1⟩ : Sparkle) :: sparkleBurst ⟨400, 300⟩).length = 21 ∧
    (decaySparkles sparkApp.sparkles).length ≤ 1 :=
  ⟨rfl, by decide, rfl, rfl, by
    simpa [decaySparkles, sparkApp, initialApp] using List.length_filter_le _ _⟩

/-- C10 (amended): sparkles decay (every life down by `0.05`,
non-positive lives removed) exactly on Playing-state ticks past the
movement timer that do not end in a collision; on a colliding tick the
list is instead extended by the 20-sparkle burst with no decay, and on
every other update call it is unchanged. -/
theorem C10_sparkle_decay (a : AppState) (t : Nat) (rng : List Nat) (a' : AppState)
    (hu : update a t rng = some a') :
    (a.state ≠ GameState.PLAYING → a'.sparkles = a.sparkles) ∧
    (a.state = GameState.PLAYING →
      timerBlocks t a.lastMoveTime a.snakeSpeed = true → a'.sparkles = a.sparkles) ∧
    (a.state = GameState.PLAYING →
      timerBlocks t a.lastMoveTime a.snakeSpeed = false →
      (a.snake = [] → a'.sparkles = decaySparkles a.sparkles) ∧
      (a.snake ≠ [] →
        (newHeadOf (a.snake.headD ⟨0, 0⟩) a.direction ∈ a.snake ∨
         newHeadOf (a.snake.headD ⟨0, 0⟩) a.direction ∈ a.obstacles →
          a'.sparkles = a.sparkles ++ sparkleBurst (a.snake.headD ⟨0, 0⟩)) ∧
        (¬ (newHeadOf (a.snake.headD ⟨0, 0⟩) a.direction ∈ a.snake ∨
            newHeadOf (a.snake.headD ⟨0, 0⟩) a.direction ∈ a.obstacles) →
          a'.sparkles = decaySparkles a.sparkles))) := by
  refine ⟨fun h1 => ?_, fun h1 h2 => ?_, fun h1 h2 => ?_⟩
  · simp only [update, ne_eq, eq_false h1, not_false_eq_true, if_true] at hu
    injection hu with hu
    subst hu
    rfl
  · simp only [update, h1, ne_eq, not_true_eq_false, if_false, h2, if_true] at hu
    injection hu with hu
    subst hu
    rfl
  · simp only [update, h1, ne_eq, not_true_eq_false, if_false, h2,
      Bool.false_eq_true] at hu
    refine ⟨fun h3 => ?_, fun h3 => ⟨fun h4 => ?_, fun h4 => ?_⟩⟩
    · rw [if_pos h3] at hu
      injection hu with hu
      subst hu
      rfl
    · rw [if_neg h3, if_pos h4] at hu
      rw [handleCollision] at hu
      obtain ⟨-, -, -, -, -, h6, -, -, -⟩ := resetGame_spec _ _ _ hu
      exact h6.trans rfl
    · rw [if_neg h3, if_neg h4] at hu
      split at hu
      · split at hu
        · exact absurd hu (by simp)
        · rename_i a3 heq
          injection hu with hu
          subst hu
          simp only [eatFood] at heq
          split at heq
          · exact absurd heq (by simp)
          · rename_i a4 rng1 hsf
            split at heq
            · exact absurd heq (by simp)
            · rename_i a5 rng2 hso
              injection heq with heq
              subst heq
              obtain ⟨ps, rfl, -, -⟩ := spawnFood_spec _ _ _ _ hsf
              obtain ⟨qs, rfl, -, -⟩ := spawnObstacles_spec _ _ _ _ _ hso
              rfl
      · injection hu with hu
        subst hu
        rfl

/-- Witness for C10 (amended): on a menu-state update call the sparkle
list is unchanged. -/
theorem C10_witness :
    ({ initialApp with animationTime := initialApp.animationTime + 1 / 50 } :
        AppState).sparkles = initialApp.sparkles :=
  (C10_sparkle_decay initialApp 5 []
      { initialApp with animationTime := initialApp.animationTime + 1 / 50 } rfl).1
    (by decide)

/-- C9: spawning does not exclude cells of its own kind — with entropy
`[0,0,0,0]` a single food spawn places both food items on `(0,0)`, and
an obstacle spawn happily places a new obstacle on the cell an obstacle
already occupies, so within-set distinctness fails. -/
theorem C9_duplicate_spawns :
    (spawnFood foodDupApp [0, 0, 0, 0]).map (fun pr => pr.1.foodItems) =
      some [⟨0, 0⟩, ⟨0, 0⟩] ∧
    (spawnObstacles obsDupApp 1 [0, 0]).map (fun pr => pr.1.obstacles) =
      some [⟨0, 0⟩, ⟨0, 0⟩] ∧
    ¬ ([(⟨0, 0⟩ : Point), ⟨0, 0⟩].Nodup) :=
  ⟨rfl, rfl, by decide⟩

end Csnake
